import Mathlib

/-!
Verification of the NCPatcher patch maker against its specification.

The definitions below are a shallow embedding of the code in
src/source/patch/patchmaker.cpp.  Machine integers (u32/u16) are modelled as
Nat with explicit reduction modulo 2^32 (resp. 2^16) at the points where the
C++ code performs wrapping arithmetic or truncating conversions.  Functions
from headers that are not part of the source tree (Util::overlaps,
Util::indexOf, the CodeBin byte interface, OverlayBin) are modelled from the
specification and marked as such in their doc comments.
-/

namespace NCPatcher

/-- Reduction of a Nat to an unsigned 32-bit value, as C++ u32 arithmetic does. -/
def u32 (n : Nat) : Nat := n % 4294967296

/-- Unsigned 32-bit subtraction with wrap-around, as computed on C++ u32 operands. -/
def u32sub (a b : Nat) : Nat := (u32 a + (4294967296 - u32 b)) % 4294967296

/-- ARM B opcode base (patchmaker.cpp line 28). -/
def armOpcodeB : Nat := 0xEA000000

/-- ARM BL opcode base (patchmaker.cpp line 29). -/
def armOpcodeBL : Nat := 0xEB000000

/-- ARM BLX opcode base (patchmaker.cpp line 30). -/
def armOpCodeBLX : Nat := 0xFA000000

/-- PUSH {R0-R3,R12,LR} (patchmaker.cpp line 31). -/
def armHookPush : Nat := 0xE92D500F

/-- POP {R0-R3,R12,LR} (patchmaker.cpp line 32). -/
def armHookPop : Nat := 0xE8BD500F

/-- First halfword of a THUMB BL pair (patchmaker.cpp line 33). -/
def thumbOpCodeBL0 : Nat := 0xF000

/-- Second halfword base of a THUMB BL pair (patchmaker.cpp line 34). -/
def thumbOpCodeBL1 : Nat := 0xF800

/-- Second halfword base of a THUMB BLX pair (patchmaker.cpp line 35). -/
def thumbOpCodeBLX1 : Nat := 0xE800

/-- THUMB PUSH {LR} (patchmaker.cpp line 36). -/
def thumbOpCodePushLR : Nat := 0xB500

/-- THUMB POP {PC} (patchmaker.cpp line 37). -/
def thumbOpCodePopPC : Nat := 0xBD00

/-- Embedding of PatchMaker::makeJumpOpCode (patchmaker.cpp lines 1238-1241):
opCode | ((((toAddr - fromAddr) >> 2) - 2) & 0xFFFFFF) in u32 arithmetic. -/
def makeJumpOpCode (opCode fromAddr toAddr : Nat) : Nat :=
  opCode ||| (u32sub (u32sub toAddr fromAddr >>> 2) 2 &&& 0xFFFFFF)

/-- Embedding of PatchMaker::makeThumbJumpOpCode (patchmaker.cpp lines 1243-1249).
The opCode argument is a u16 halfword base; the result packs two halfwords as
opcode1 << 16 | opcode0. -/
def makeThumbJumpOpCode (opCode fromAddr toAddr : Nat) : Nat :=
  let offset := u32sub (u32sub toAddr fromAddr >>> 1) 2
  let opcode0 := thumbOpCodeBL0 ||| (offset &&& 0x3FF800) >>> 11
  let opcode1 := opCode ||| (offset &&& 0x7FF)
  opcode1 <<< 16 ||| opcode0

/-- Embedding of PatchMaker::fixupOpCode (patchmaker.cpp lines 1251-1260): when the
opcode is in the ARM branch family (bits 27..25 equal 0b101), reconstruct the absolute
target from the original address and re-encode the branch against the new address. -/
def fixupOpCode (opCode ogAddr newAddr : Nat) : Nat :=
  if (opCode >>> 25) &&& 7 = 5 then
    makeJumpOpCode (opCode &&& 0xFF000000) newAddr (u32 ((((opCode &&& 0xFFFFFF) + 2) <<< 2) + ogAddr))
  else opCode

/-- Low 24 bits of an opcode, read as a signed 24-bit immediate (claim-side decoding). -/
def signedImm24 (opcode : Nat) : Int :=
  if opcode % 16777216 < 8388608 then ((opcode % 16777216 : Nat) : Int)
  else ((opcode % 16777216 : Nat) : Int) - 16777216

/-- Claim-side decoder for an ARM branch opcode: ((imm24 + 2) << 2) + fromAddr as a
32-bit address, with imm24 read as a signed 24-bit immediate. -/
def decodeArmBranchTarget (opcode fromAddr : Nat) : Nat :=
  (((signedImm24 opcode + 2) * 4 + (fromAddr : Int)) % 4294967296).toNat

/-- A value whose bits lie below 2^n can be OR-combined with a multiple of 2^n by
plain addition. -/
theorem two_pow_mul_or_eq_add {n a b : Nat} (h : b < 2 ^ n) : (2 ^ n * a) ||| b = 2 ^ n * a + b := by
  apply Nat.eq_of_testBit_eq
  intro i
  have hz : (0 : Nat) < 2 ^ n := Nat.pos_pow_of_pos n (by norm_num)
  have h2 := Nat.testBit_mul_pow_two_add a h i
  have h3 := Nat.testBit_mul_pow_two_add a hz i
  simp only [Nat.add_zero] at h3
  rw [Nat.testBit_lor, h2, h3]
  by_cases hi : i < n
  · simp [hi]
  · have hb2 : b < 2 ^ i := lt_of_lt_of_le h (Nat.pow_le_pow_right (by norm_num) (Nat.le_of_not_lt hi))
    simp [hi, Nat.testBit_eq_false_of_lt hb2]

/-- Masking with 0xFFFFFF is reduction modulo 2^24. -/
theorem and_mask24_eq_mod (x : Nat) : x &&& 0xFFFFFF = x % 16777216 := by
  have := Nat.and_pow_two_sub_one_eq_mod x 24
  norm_num at this
  exact this

/-- OR-ing the B opcode base with a 24-bit value is plain addition. -/
theorem orEA_eq_add (b : Nat) (hb : b < 16777216) : (0xEA000000 : Nat) ||| b = 3925868544 + b := by
  have h24 : b < 2 ^ 24 := by omega
  have h := two_pow_mul_or_eq_add (a := 234) h24
  norm_num at h
  try exact h

/-- OR-ing a value below 2^24 into an opcode does not change the bits from 24 up. -/
theorem or_shiftRight24 (op m : Nat) (hm : m < 16777216) : (op ||| m) >>> 24 = op >>> 24 := by
  have hr : op % 2 ^ 24 < 2 ^ 24 := Nat.mod_lt _ (by norm_num)
  have hm' : m < 2 ^ 24 := by omega
  have hs : op % 2 ^ 24 ||| m < 2 ^ 24 := Nat.or_lt_two_pow hr hm'
  calc (op ||| m) >>> 24
      = ((2 ^ 24 * (op / 2 ^ 24) + op % 2 ^ 24) ||| m) >>> 24 := by rw [Nat.div_add_mod]
    _ = ((2 ^ 24 * (op / 2 ^ 24) ||| op % 2 ^ 24) ||| m) >>> 24 := by
        rw [two_pow_mul_or_eq_add hr]
    _ = (2 ^ 24 * (op / 2 ^ 24) ||| (op % 2 ^ 24 ||| m)) >>> 24 := by rw [Nat.lor_assoc]
    _ = (2 ^ 24 * (op / 2 ^ 24) + (op % 2 ^ 24 ||| m)) >>> 24 := by
        rw [two_pow_mul_or_eq_add hs]
    _ = op / 2 ^ 24 := by
        rw [Nat.shiftRight_eq_div_pow]
        omega
    _ = op >>> 24 := by rw [Nat.shiftRight_eq_div_pow]

/-- Round trip of the source ARM branch encoder with the signed 24-bit decoder, on the
offset range where the encoding is faithful. -/
theorem decode_makeJump (F T : Nat) (hFlt : F < 4294967296) (hTlt : T < 4294967296)
    (hF : F % 4 = 0) (hT : T % 4 = 0)
    (hlo : -(33554432 : Int) + 8 ≤ (T : Int) - (F : Int))
    (hhi : (T : Int) - (F : Int) ≤ 33554432 + 4) :
    decodeArmBranchTarget (makeJumpOpCode armOpcodeB F T) F = T := by
  have hDlt : u32sub T F < 4294967296 := by rw [u32sub]; omega
  have hD : u32sub T F = (T + (4294967296 - F)) % 4294967296 := by
    rw [u32sub, u32, u32]
    omega
  have hstep3 : u32sub (u32sub T F >>> 2) 2 = (u32sub T F / 4 + 4294967294) % 4294967296 := by
    rw [u32sub, u32, u32, Nat.shiftRight_eq_div_pow]
    norm_num
    try omega
  have hR : (u32sub T F / 4 + 4294967294) % 4294967296 % 16777216
      = (u32sub T F / 4 + 16777214) % 16777216 := by omega
  have hRlt : (u32sub T F / 4 + 16777214) % 16777216 < 16777216 := by omega
  have hor : makeJumpOpCode armOpcodeB F T
      = 3925868544 + (u32sub T F / 4 + 16777214) % 16777216 := by
    rw [makeJumpOpCode, armOpcodeB, and_mask24_eq_mod, hstep3, hR]
    exact orEA_eq_add _ hRlt
  rw [hor, decodeArmBranchTarget, signedImm24]
  have hmm : (3925868544 + (u32sub T F / 4 + 16777214) % 16777216) % 16777216
      = (u32sub T F / 4 + 16777214) % 16777216 := by omega
  rw [hmm]
  have hkey : ((if (u32sub T F / 4 + 16777214) % 16777216 < 8388608
      then (((u32sub T F / 4 + 16777214) % 16777216 : Nat) : Int)
      else (((u32sub T F / 4 + 16777214) % 16777216 : Nat) : Int) - 16777216) + 2) * 4
        + (F : Int) = (T : Int) := by
    split
    · omega
    · omega
  rw [hkey]
  omega

/-- Embedding of the ARM to ARM Jump patch write (patchmaker.cpp line 1292): the 32-bit
word written at destAddress is makeJumpOpCode(armOpcodeB, destAddress, srcAddress). -/
def armArmJumpWord (destAddress srcAddress : Nat) : Nat :=
  makeJumpOpCode armOpcodeB destAddress srcAddress

/-- Modelled from the spec: the CodeBin write<u32> primitive stores its value
little-endian (spec section 4.1; the CodeBin implementation headers are not under
src/).  This is the byte image of a 32-bit word as it lands in the binary. -/
def u32LEBytes (w : Nat) : List Nat :=
  [w % 256, w / 256 % 256, w / 65536 % 256, w / 16777216 % 256]

/-- Claim C7 counterexample: for an ARM to ARM jump with destAddress 0x02000000 and
srcAddress 0x02020000 the written word is not 0xEAFF7F00 and its little-endian byte
sequence is not 00 7F FF EA, contrary to the claim. -/
theorem claim_C7_counterexample :
    armArmJumpWord 0x02000000 0x02020000 ≠ 0xEAFF7F00 ∧
    u32LEBytes (armArmJumpWord 0x02000000 0x02020000) ≠ [0x00, 0x7F, 0xFF, 0xEA] := by
  decide

/-- Claim C7 (amended): for an ARM to ARM Jump patch with destAddress 0x02000000 and
linked srcAddress 0x02020000, the 32-bit word written at destAddress is the little-endian
word 0xEA007FFE, i.e. the byte sequence FE 7F 00 EA. -/
theorem claim_C7 :
    armArmJumpWord 0x02000000 0x02020000 = 0xEA007FFE ∧
    u32LEBytes (armArmJumpWord 0x02000000 0x02020000) = [0xFE, 0x7F, 0x00, 0xEA] := by
  decide

/-- Claim C8 counterexample: the word-aligned addresses F = 0x02000000 and T = 0x00000004
differ by -33554428, which lies within plus-or-minus 32 MiB, yet decoding the encoded
branch yields 0x04000004, not T. -/
theorem claim_C8_counterexample :
    (0x02000000 : Nat) % 4 = 0 ∧ (0x00000004 : Nat) % 4 = 0 ∧
    ((0x00000004 : Int) - 0x02000000).natAbs ≤ 33554432 ∧
    decodeArmBranchTarget (makeJumpOpCode armOpcodeB 0x02000000 0x00000004) 0x02000000
      = 0x04000004 := by
  decide

/-- Claim C8 (amended): for word-aligned 32-bit addresses F and T whose difference T - F
lies within plus-or-minus 32 MiB and is at least -2^25 + 8, decoding the opcode produced
by makeJumpOpCode(0xEA000000, F, T) - taking its low 24 bits as a signed imm24 and
computing ((imm24 + 2) << 2) + F - recovers exactly T. -/
theorem claim_C8 (F T : Nat) (hFlt : F < 4294967296) (hTlt : T < 4294967296)
    (hF : F % 4 = 0) (hT : T % 4 = 0)
    (hlo : -(33554432 : Int) + 8 ≤ (T : Int) - (F : Int))
    (hhi : (T : Int) - (F : Int) ≤ 33554432) :
    decodeArmBranchTarget (makeJumpOpCode armOpcodeB F T) F = T :=
  decode_makeJump F T hFlt hTlt hF hT hlo (by omega)

/-- Witness for claim C8 at F = 0x02000000, T = 0x02020000. -/
theorem claim_C8_witness :
    decodeArmBranchTarget (makeJumpOpCode armOpcodeB 0x02000000 0x02020000) 0x02000000
      = 0x02020000 :=
  claim_C8 0x02000000 0x02020000 (by decide) (by decide) (by decide) (by decide)
    (by decide) (by decide)

/-- Claim C9: for every 32-bit opcode base and any from and to addresses, the opcode
produced by makeJumpOpCode has the same top 8 bits as the base: the encoded offset is
masked to 24 bits before being OR'd in. -/
theorem claim_C9 (opCode fromAddr toAddr : Nat) (h : opCode < 4294967296) :
    makeJumpOpCode opCode fromAddr toAddr >>> 24 = opCode >>> 24 := by
  rw [makeJumpOpCode, and_mask24_eq_mod]
  exact or_shiftRight24 _ _ (Nat.mod_lt _ (by norm_num))

/-- Witness for claim C9 at opCode = 0xEB000000, fromAddr = 0x02000004,
toAddr = 0x02030000. -/
theorem claim_C9_witness :
    makeJumpOpCode 0xEB000000 0x02000004 0x02030000 >>> 24 = (0xEB000000 : Nat) >>> 24 :=
  claim_C9 0xEB000000 0x02000004 0x02030000 (by decide)

namespace PatchType

/-- Numeric value of the PatchType enumerators (patchmaker.cpp lines 39-47). -/
def Jump : Nat := 0

def Call : Nat := 1

def Hook : Nat := 2

def Over : Nat := 3

def SetJump : Nat := 4

def SetCall : Nat := 5

def SetHook : Nat := 6

def RtRepl : Nat := 7

def TJump : Nat := 8

def TCall : Nat := 9

def THook : Nat := 10

def TSetJump : Nat := 11

def TSetCall : Nat := 12

def TSetHook : Nat := 13

end PatchType

/-- Ordered patch type name table (patchmaker.cpp lines 110-116). -/
def s_patchTypeNames : List String :=
  ["jump", "call", "hook", "over", "setjump", "setcall", "sethook", "rtrepl",
   "tjump", "tcall", "thook", "tsetjump", "tsetcall", "tsethook"]

/-- Modelled from the spec: Util::indexOf (util header not under src/); the position of
the first occurrence of the value in the array, -1 when absent.  The spec says the kind
name is matched against the ordered enumerator list. -/
def indexOfName (x : String) : List String → Int
  | [] => -1
  | y :: ys =>
    if y = x then 0
    else
      let r := indexOfName x ys
      if r = -1 then -1 else r + 1

/-- Embedding of the GenericPatchInfo record (patchmaker.cpp lines 49-63).  The job
back-reference is reduced to the one datum the patch maker reads from it,
job->region->destination, stored here as jobRegionDest. -/
structure GenericPatchInfo where
  srcAddress : Nat
  srcAddressOv : Int
  destAddress : Nat
  destAddressOv : Int
  patchType : Nat
  sectionIdx : Int
  sectionSize : Nat
  isNcpSet : Bool
  srcThumb : Bool
  destThumb : Bool
  symbol : String
  jobRegionDest : Int
deriving Repr, DecidableEq, Inhabited

/-- Embedding of the parseSymbol lambda (patchmaker.cpp lines 272-381) from the point
where the directive name has been split and its address and overlay fields parsed: the
inputs patchTypeName, destAddressParsed and destAddressOv stand for the outcome of the
string splitting and of Util::addrToInt (util header not under src/).  symbolAddr is the
declaring symbol value (0 for section-declared patches), sectionIdx is -1 for labels,
and regionDest is the destination of the enclosing region.  Directives that produce no
generic patch record (invalid kind, over declared as a label, rtrepl) yield none. -/
def parseSymbolCore (symbolName patchTypeName : String) (destAddressParsed : Nat)
    (destAddressOv : Int) (symbolAddr : Nat) (sectionIdx : Int) (sectionSize : Nat)
    (regionDest : Int) : Option GenericPatchInfo :=
  let patchTypeIdx := indexOfName patchTypeName s_patchTypeNames
  if patchTypeIdx = -1 then none
  else
    let pt0 : Nat := patchTypeIdx.toNat
    if pt0 = PatchType.Over ∧ sectionIdx = -1 then none
    else if pt0 = PatchType.RtRepl then none
    else
      let s1 : Nat × Bool :=
        if PatchType.TJump ≤ pt0 ∧ pt0 ≤ PatchType.THook then
          (pt0 - (PatchType.TJump - PatchType.Jump), true)
        else if PatchType.TSetJump ≤ pt0 ∧ pt0 ≤ PatchType.TSetHook then
          (pt0 - (PatchType.TSetJump - PatchType.SetJump), true)
        else (pt0, false)
      let s2 : Nat × Bool :=
        if PatchType.SetJump ≤ s1.1 ∧ s1.1 ≤ PatchType.SetHook then
          (s1.1 - (PatchType.SetJump - PatchType.Jump), true)
        else (s1.1, false)
      let destAddress := if s1.2 then destAddressParsed ||| 1 else destAddressParsed
      some {
    srcAddress := 0
    srcAddressOv := if s2.1 = PatchType.Over then destAddressOv else regionDest
    destAddress := destAddress &&& 0xFFFFFFFE
    destAddressOv := destAddressOv
    patchType := s2.1
    sectionIdx := sectionIdx
    sectionSize := sectionSize
    isNcpSet := s2.2
    srcThumb := symbolAddr &&& 1 == 1
    destThumb := destAddress &&& 1 == 1
    symbol := symbolName
    jobRegionDest := regionDest }

/-- OR-ing 1 into a Nat sets its low bit. -/
theorem or_one_eq (a : Nat) : a ||| 1 = 2 * (a / 2) + 1 := by
  have hor : a % 2 ||| 1 = 1 := by
    have h : a % 2 = 0 ∨ a % 2 = 1 := by omega
    rcases h with h | h <;> rw [h] <;> decide
  calc a ||| 1 = (2 * (a / 2) + a % 2) ||| 1 := by rw [Nat.div_add_mod]
    _ = ((2 ^ 1 * (a / 2)) ||| (a % 2)) ||| 1 := by
        rw [two_pow_mul_or_eq_add (show a % 2 < 2 ^ 1 by omega)]
        norm_num
    _ = (2 ^ 1 * (a / 2)) ||| (a % 2 ||| 1) := by rw [Nat.lor_assoc]
    _ = 2 * (a / 2) + 1 := by
        rw [hor, two_pow_mul_or_eq_add (show (1 : Nat) < 2 ^ 1 by norm_num)]
        norm_num

/-- Masking a 32-bit value that has its low bit set with 0xFFFFFFFE clears exactly
that bit. -/
theorem or_one_and_maskFFFFFFFE (a : Nat) (h : a < 4294967296) :
    (a ||| 1) &&& 0xFFFFFFFE = 2 * (a / 2) := by
  rw [or_one_eq]
  apply Nat.eq_of_testBit_eq
  intro i
  rw [Nat.testBit_land]
  cases i with
  | zero =>
    simp only [Nat.testBit_zero]
    have h1 : (2 * (a / 2) + 1) % 2 = 1 := by omega
    have h2 : 2 * (a / 2) % 2 = 0 := by omega
    rw [h1, h2]
    decide
  | succ i =>
    simp only [Nat.testBit_succ]
    have h1 : (2 * (a / 2) + 1) / 2 = a / 2 := by omega
    have h2 : 2 * (a / 2) / 2 = a / 2 := by omega
    rw [h1, h2]
    rw [show ((0xFFFFFFFE : Nat) / 2) = 2 ^ 31 - 1 by norm_num]
    rw [Nat.testBit_two_pow_sub_one]
    by_cases hi : i < 31
    · simp [hi]
    · have hlt : a / 2 < 2 ^ i := by
        have h31 : a / 2 < 2 ^ 31 := by omega
        exact lt_of_lt_of_le h31 (Nat.pow_le_pow_right (by norm_num) (by omega))
      simp [hi, Nat.testBit_eq_false_of_lt hlt]

/-- Claim C5 counterexample: parsing the tjump directive for address 0x02000000 with an
even symbol value yields a record with srcThumb = false (the prefix does not mark the
source as THUMB), destThumb = true (not forced off), and an even stored destAddress
(the low bit is cleared, not set), contradicting the claim at this input. -/
theorem claim_C5_counterexample :
    (parseSymbolCore ".ncp_tjump_2000000" "tjump" 0x02000000 (-1) 0 5 0 (-1)).map
        (fun r => (r.srcThumb, r.destThumb, r.destAddress)) = some (false, true, 0x02000000) ∧
    (parseSymbolCore ".ncp_tjump_2000000" "tjump" 0x02000000 (-1) 0 5 0 (-1)).map
        (fun r => (r.srcThumb, r.destThumb, r.destAddress % 2)) ≠ some (true, false, 1) := by
  decide

/-- Claim C5 (amended): for every directive whose kind carries the t prefix (tjump,
tcall, thook, tsetjump, tsetcall, tsethook), the parser strips the prefix to the
underlying kind (setting isNcpSet for the tset variants), ORs 1 into the parsed
destination address, stores destAddress with the low bit cleared, sets the record
destThumb flag to true, and takes srcThumb from the low bit of the declaring symbol
value, unaffected by the prefix. -/
theorem claim_C5 (symName : String) (addr symAddr : Nat) (dOv secIdx regionDest : Int)
    (secSize : Nat) (haddr : addr < 4294967296) :
    parseSymbolCore symName "tjump" addr dOv symAddr secIdx secSize regionDest
      = some { srcAddress := 0, srcAddressOv := regionDest, destAddress := 2 * (addr / 2),
               destAddressOv := dOv, patchType := PatchType.Jump, sectionIdx := secIdx,
               sectionSize := secSize, isNcpSet := false, srcThumb := symAddr % 2 == 1,
               destThumb := true, symbol := symName, jobRegionDest := regionDest } ∧
    parseSymbolCore symName "tcall" addr dOv symAddr secIdx secSize regionDest
      = some { srcAddress := 0, srcAddressOv := regionDest, destAddress := 2 * (addr / 2),
               destAddressOv := dOv, patchType := PatchType.Call, sectionIdx := secIdx,
               sectionSize := secSize, isNcpSet := false, srcThumb := symAddr % 2 == 1,
               destThumb := true, symbol := symName, jobRegionDest := regionDest } ∧
    parseSymbolCore symName "thook" addr dOv symAddr secIdx secSize regionDest
      = some { srcAddress := 0, srcAddressOv := regionDest, destAddress := 2 * (addr / 2),
               destAddressOv := dOv, patchType := PatchType.Hook, sectionIdx := secIdx,
               sectionSize := secSize, isNcpSet := false, srcThumb := symAddr % 2 == 1,
               destThumb := true, symbol := symName, jobRegionDest := regionDest } ∧
    parseSymbolCore symName "tsetjump" addr dOv symAddr secIdx secSize regionDest
      = some { srcAddress := 0, srcAddressOv := regionDest, destAddress := 2 * (addr / 2),
               destAddressOv := dOv, patchType := PatchType.Jump, sectionIdx := secIdx,
               sectionSize := secSize, isNcpSet := true, srcThumb := symAddr % 2 == 1,
               destThumb := true, symbol := symName, jobRegionDest := regionDest } ∧
    parseSymbolCore symName "tsetcall" addr dOv symAddr secIdx secSize regionDest
      = some { srcAddress := 0, srcAddressOv := regionDest, destAddress := 2 * (addr / 2),
               destAddressOv := dOv, patchType := PatchType.Call, sectionIdx := secIdx,
               sectionSize := secSize, isNcpSet := true, srcThumb := symAddr % 2 == 1,
               destThumb := true, symbol := symName, jobRegionDest := regionDest } ∧
    parseSymbolCore symName "tsethook" addr dOv symAddr secIdx secSize regionDest
      = some { srcAddress := 0, srcAddressOv := regionDest, destAddress := 2 * (addr / 2),
               destAddressOv := dOv, patchType := PatchType.Hook, sectionIdx := secIdx,
               sectionSize := secSize, isNcpSet := true, srcThumb := symAddr % 2 == 1,
               destThumb := true, symbol := symName, jobRegionDest := regionDest } := by
  refine ⟨?_, ?_, ?_, ?_, ?_, ?_⟩
  · have hidx : indexOfName "tjump" s_patchTypeNames = 8 := by decide
    have ht : (8 : Int).toNat = 8 := rfl
    simp only [parseSymbolCore, hidx, ht]
    norm_num [PatchType.Jump, PatchType.Call, PatchType.Hook, PatchType.Over,
      PatchType.SetJump, PatchType.SetCall, PatchType.SetHook, PatchType.RtRepl,
      PatchType.TJump, PatchType.TCall, PatchType.THook, PatchType.TSetJump,
      PatchType.TSetCall, PatchType.TSetHook, GenericPatchInfo.mk.injEq, Option.some.injEq]
    exact or_one_and_maskFFFFFFFE addr haddr
  · have hidx : indexOfName "tcall" s_patchTypeNames = 9 := by decide
    have ht : (9 : Int).toNat = 9 := rfl
    simp only [parseSymbolCore, hidx, ht]
    norm_num [PatchType.Jump, PatchType.Call, PatchType.Hook, PatchType.Over,
      PatchType.SetJump, PatchType.SetCall, PatchType.SetHook, PatchType.RtRepl,
      PatchType.TJump, PatchType.TCall, PatchType.THook, PatchType.TSetJump,
      PatchType.TSetCall, PatchType.TSetHook, GenericPatchInfo.mk.injEq, Option.some.injEq]
    exact or_one_and_maskFFFFFFFE addr haddr
  · have hidx : indexOfName "thook" s_patchTypeNames = 10 := by decide
    have ht : (10 : Int).toNat = 10 := rfl
    simp only [parseSymbolCore, hidx, ht]
    norm_num [PatchType.Jump, PatchType.Call, PatchType.Hook, PatchType.Over,
      PatchType.SetJump, PatchType.SetCall, PatchType.SetHook, PatchType.RtRepl,
      PatchType.TJump, PatchType.TCall, PatchType.THook, PatchType.TSetJump,
      PatchType.TSetCall, PatchType.TSetHook, GenericPatchInfo.mk.injEq, Option.some.injEq]
    exact or_one_and_maskFFFFFFFE addr haddr
  · have hidx : indexOfName "tsetjump" s_patchTypeNames = 11 := by decide
    have ht : (11 : Int).toNat = 11 := rfl
    simp only [parseSymbolCore, hidx, ht]
    norm_num [PatchType.Jump, PatchType.Call, PatchType.Hook, PatchType.Over,
      PatchType.SetJump, PatchType.SetCall, PatchType.SetHook, PatchType.RtRepl,
      PatchType.TJump, PatchType.TCall, PatchType.THook, PatchType.TSetJump,
      PatchType.TSetCall, PatchType.TSetHook, GenericPatchInfo.mk.injEq, Option.some.injEq]
    exact or_one_and_maskFFFFFFFE addr haddr
  · have hidx : indexOfName "tsetcall" s_patchTypeNames = 12 := by decide
    have ht : (12 : Int).toNat = 12 := rfl
    simp only [parseSymbolCore, hidx, ht]
    norm_num [PatchType.Jump, PatchType.Call, PatchType.Hook, PatchType.Over,
      PatchType.SetJump, PatchType.SetCall, PatchType.SetHook, PatchType.RtRepl,
      PatchType.TJump, PatchType.TCall, PatchType.THook, PatchType.TSetJump,
      PatchType.TSetCall, PatchType.TSetHook, GenericPatchInfo.mk.injEq, Option.some.injEq]
    exact or_one_and_maskFFFFFFFE addr haddr
  · have hidx : indexOfName "tsethook" s_patchTypeNames = 13 := by decide
    have ht : (13 : Int).toNat = 13 := rfl
    simp only [parseSymbolCore, hidx, ht]
    norm_num [PatchType.Jump, PatchType.Call, PatchType.Hook, PatchType.Over,
      PatchType.SetJump, PatchType.SetCall, PatchType.SetHook, PatchType.RtRepl,
      PatchType.TJump, PatchType.TCall, PatchType.THook, PatchType.TSetJump,
      PatchType.TSetCall, PatchType.TSetHook, GenericPatchInfo.mk.injEq, Option.some.injEq]
    exact or_one_and_maskFFFFFFFE addr haddr

/-- Witness for claim C5 at addr = 6, symAddr = 1. -/
theorem claim_C5_witness :
    parseSymbolCore "s" "tjump" 6 (-1) 1 5 0 (-1)
      = some { srcAddress := 0, srcAddressOv := -1, destAddress := 6, destAddressOv := -1,
               patchType := PatchType.Jump, sectionIdx := 5, sectionSize := 0,
               isNcpSet := false, srcThumb := true, destThumb := true, symbol := "s",
               jobRegionDest := -1 } :=
  (claim_C5 "s" 6 1 (-1) 5 (-1) 0 (by decide)).1

/-- Patch byte footprint used by the overlap check (patchmaker.cpp lines 1159-1160):
sectionSize for an Over patch, otherwise 4. -/
def patchByteSize (p : GenericPatchInfo) : Nat :=
  if p.patchType = PatchType.Over then p.sectionSize else 4

/-- Modelled from the spec: Util::overlaps (util header not under src/); whether the
half-open ranges [aStart, aEnd) and [bStart, bEnd) have a common point. -/
def rangesOverlap (aStart aEnd bStart bEnd : Nat) : Bool :=
  max aStart bStart < min aEnd bEnd

/-- The per-pair test of the overlap loop (patchmaker.cpp lines 1157-1161): equal
destAddressOv and overlapping ranges.  The range ends destAddress + size are computed
on u32 operands in the source and therefore wrap modulo 2^32. -/
def overlapCond (a b : GenericPatchInfo) : Bool :=
  a.destAddressOv == b.destAddressOv &&
  rangesOverlap a.destAddress (u32 (a.destAddress + patchByteSize a))
    b.destAddress (u32 (b.destAddress + patchByteSize b))

/-- Embedding of the overlap detection loop of gatherInfoFromElf (patchmaker.cpp lines
1149-1170): every index pair i < j whose two patches share destAddressOv and overlap is
logged; the list collects the reported pairs in loop order. -/
def offendingPairs (ps : List GenericPatchInfo) : List (Nat × Nat) :=
  (List.range ps.length).flatMap fun i =>
    ((List.range ps.length).filter fun j =>
      decide (i < j) && overlapCond (ps.getD i default) (ps.getD j default)).map fun j => (i, j)

/-- Embedding of the fatal-error decision (patchmaker.cpp lines 1171-1172): the
exception is thrown iff at least one overlapping pair was found. -/
def overlapFatal (ps : List GenericPatchInfo) : Bool :=
  !(offendingPairs ps).isEmpty

/-- Claim-side meaning of the original claim: the mathematical half-open ranges
[destAddress, destAddress + size) share a point, with no wrap-around. -/
def rangesIntersect (a b : GenericPatchInfo) : Prop :=
  ∃ x, a.destAddress ≤ x ∧ x < a.destAddress + patchByteSize a ∧
       b.destAddress ≤ x ∧ x < b.destAddress + patchByteSize b

/-- Claim-side meaning of the amended claim: the half-open ranges whose ends are the
u32-wrapped sums destAddress + size share a point; a range whose end wraps past 2^32
is empty under this reading, as it is for the u32 comparison the code performs. -/
def rangesIntersectU32 (a b : GenericPatchInfo) : Prop :=
  ∃ x, a.destAddress ≤ x ∧ x < u32 (a.destAddress + patchByteSize a) ∧
       b.destAddress ≤ x ∧ x < u32 (b.destAddress + patchByteSize b)

/-- The Bool range test holds iff the two half-open ranges share a point, for any four
bounds. -/
theorem rangesOverlap_iff (aS aE bS bE : Nat) :
    rangesOverlap aS aE bS bE = true ↔ ∃ x, aS ≤ x ∧ x < aE ∧ bS ≤ x ∧ x < bE := by
  rw [rangesOverlap]
  simp only [decide_eq_true_eq]
  constructor
  · intro h
    exact ⟨max aS bS, by omega, by omega, by omega, by omega⟩
  · rintro ⟨x, h1, h2, h3, h4⟩
    omega

/-- The per-pair test coincides with equal destination and nonempty intersection of
the u32-wrapped ranges. -/
theorem overlapCond_iff (a b : GenericPatchInfo) :
    overlapCond a b = true ↔ a.destAddressOv = b.destAddressOv ∧ rangesIntersectU32 a b := by
  rw [overlapCond]
  simp only [Bool.and_eq_true, beq_iff_eq]
  exact and_congr_right fun _ => rangesOverlap_iff _ _ _ _

/-- Membership in the reported pair list matches the loop condition. -/
theorem mem_offendingPairs (ps : List GenericPatchInfo) (i j : Nat) :
    (i, j) ∈ offendingPairs ps ↔
      i < j ∧ j < ps.length ∧ overlapCond (ps.getD i default) (ps.getD j default) = true := by
  simp only [offendingPairs, List.mem_flatMap, List.mem_map, List.mem_filter, List.mem_range,
    Bool.and_eq_true, decide_eq_true_eq, Prod.mk.injEq]
  constructor
  · rintro ⟨a, ha, b, ⟨hb, hab, hcond⟩, rfl, rfl⟩
    exact ⟨hab, hb, hcond⟩
  · rintro ⟨hij, hj, hcond⟩
    exact ⟨i, by omega, j, ⟨hj, hij, hcond⟩, rfl, rfl⟩

/-- The fatal flag is set iff some pair was reported. -/
theorem overlapFatal_iff_exists (ps : List GenericPatchInfo) :
    overlapFatal ps = true ↔ ∃ pr, pr ∈ offendingPairs ps := by
  rw [overlapFatal, Bool.not_eq_true', List.isEmpty_eq_false]
  constructor
  · intro h
    rcases List.exists_mem_of_ne_nil _ h with ⟨x, hx⟩
    exact ⟨x, hx⟩
  · rintro ⟨x, hx⟩
    intro hnil
    rw [hnil] at hx
    simp at hx

/-- First of two Jump patches at destAddress 0xFFFFFFFC whose u32 range end wraps to
0, for the claim C2 counterexample. -/
def wrapJumpPatchA : GenericPatchInfo :=
  { srcAddress := 0x02030000, srcAddressOv := -1, destAddress := 0xFFFFFFFC,
    destAddressOv := -1, patchType := PatchType.Jump, sectionIdx := -1, sectionSize := 0,
    isNcpSet := false, srcThumb := false, destThumb := false,
    symbol := "ncp_jump_FFFFFFFC", jobRegionDest := -1 }

/-- Second Jump patch at the same destAddress 0xFFFFFFFC, for the claim C2
counterexample. -/
def wrapJumpPatchB : GenericPatchInfo :=
  { srcAddress := 0x02030010, srcAddressOv := -1, destAddress := 0xFFFFFFFC,
    destAddressOv := -1, patchType := PatchType.Jump, sectionIdx := -1, sectionSize := 0,
    isNcpSet := false, srcThumb := false, destThumb := false,
    symbol := "ncp_jump_FFFFFFFC_b", jobRegionDest := -1 }

/-- Claim C2 counterexample: for two distinct Jump patches at destAddress 0xFFFFFFFC in
the same destination, the mathematical half-open ranges
[0xFFFFFFFC, 0xFFFFFFFC + 4) coincide and intersect, yet the code raises no fatal
error: the u32 sum destAddress + 4 wraps to 0 at patchmaker.cpp line 1161 and the
per-pair test is false, so the claimed iff fails at this input. -/
theorem claim_C2_counterexample :
    overlapFatal [wrapJumpPatchA, wrapJumpPatchB] = false ∧
    (0 : Nat) < 1 ∧ 1 < [wrapJumpPatchA, wrapJumpPatchB].length ∧
    ([wrapJumpPatchA, wrapJumpPatchB].getD 0 default).destAddressOv
      = ([wrapJumpPatchA, wrapJumpPatchB].getD 1 default).destAddressOv ∧
    rangesIntersect ([wrapJumpPatchA, wrapJumpPatchB].getD 0 default)
      ([wrapJumpPatchA, wrapJumpPatchB].getD 1 default) := by
  refine ⟨by decide, by decide, by decide, by decide,
    ⟨0xFFFFFFFC, by decide, by decide, by decide, by decide⟩⟩

/-- Claim C2 (amended): after the post-link resolver runs, the fatal overlap error is
raised iff some pair of distinct patch records with equal destAddressOv has
intersecting half-open ranges [destAddress, destAddress + size), the range end being
the u32-wrapped sum as the code computes it, with size = sectionSize for Over patches
and 4 otherwise (a patch whose destAddress + size wraps past 2^32 has an empty range
and collides with nothing); the reported pair list contains exactly the offending
pairs, so every offending pair is reported before the error is raised and no error
occurs when all such ranges within each destination are pairwise disjoint. -/
theorem claim_C2 (ps : List GenericPatchInfo) :
    (overlapFatal ps = true ↔
      ∃ i j, i < j ∧ j < ps.length ∧
        (ps.getD i default).destAddressOv = (ps.getD j default).destAddressOv ∧
        rangesIntersectU32 (ps.getD i default) (ps.getD j default)) ∧
    (∀ i j, (i, j) ∈ offendingPairs ps ↔
      (i < j ∧ j < ps.length ∧
        (ps.getD i default).destAddressOv = (ps.getD j default).destAddressOv ∧
        rangesIntersectU32 (ps.getD i default) (ps.getD j default))) := by
  have hpair : ∀ i j, (i, j) ∈ offendingPairs ps ↔
      (i < j ∧ j < ps.length ∧
        (ps.getD i default).destAddressOv = (ps.getD j default).destAddressOv ∧
        rangesIntersectU32 (ps.getD i default) (ps.getD j default)) := by
    intro i j
    rw [mem_offendingPairs, overlapCond_iff]
  refine ⟨?_, hpair⟩
  rw [overlapFatal_iff_exists]
  constructor
  · rintro ⟨⟨i, j⟩, hp⟩
    exact ⟨i, j, (hpair i j).1 hp⟩
  · rintro ⟨i, j, hcond⟩
    exact ⟨(i, j), (hpair i j).2 hcond⟩

/-- Per-patch autogen reservation of the layout planner (patchmaker.cpp lines 806-815):
20 bytes for a Hook, 8 bytes for an ARM to THUMB Jump, nothing otherwise. -/
def bridgeReserveBytes (p : GenericPatchInfo) : Nat :=
  if p.patchType = PatchType.Hook then 20
  else if p.patchType = PatchType.Jump ∧ p.destThumb = false ∧ p.srcThumb = true then 8
  else 0

/-- Embedding of the autogenDataSize accumulation of createLinkerScript (patchmaker.cpp
lines 781-818) projected to one destination: Over patches are diverted to over memories
and reserve nothing; every other patch whose job region destination matches contributes
its bridge bytes. -/
def autogenReserveForDest (dest : Int) : List GenericPatchInfo → Nat
  | [] => 0
  | p :: ps =>
    (if p.patchType ≠ PatchType.Over ∧ p.jobRegionDest = dest then bridgeReserveBytes p
     else 0) +
    autogenReserveForDest dest ps

/-- Claim-side count of Hook patches belonging to a destination region. -/
def hookCountForDest (dest : Int) : List GenericPatchInfo → Nat
  | [] => 0
  | p :: ps =>
    (if p.patchType = PatchType.Hook ∧ p.jobRegionDest = dest then 1 else 0) +
    hookCountForDest dest ps

/-- Claim-side count of Jump patches with destThumb = false and srcThumb = true
belonging to a destination region. -/
def arm2ThumbJumpCountForDest (dest : Int) : List GenericPatchInfo → Nat
  | [] => 0
  | p :: ps =>
    (if p.patchType = PatchType.Jump ∧ p.destThumb = false ∧ p.srcThumb = true ∧
        p.jobRegionDest = dest then 1 else 0) +
    arm2ThumbJumpCountForDest dest ps

/-- Embedding of the autogen byte traffic of applyPatchesToRom (patchmaker.cpp lines
1280-1430) projected to the autogen buffer of one destination: walking the patch list,
an ARM to THUMB Jump appends 8 bridge bytes to the buffer of its srcAddressOv
destination (patchmaker.cpp lines 1294-1323) and a Hook appends 20 (lines 1372-1421);
Hook patches with a THUMB end and thumb-interworking Calls on ARM7 abort with the
errors of lines 1345-1351 and 1387-1388, as does a bridge patch whose destination has
no autogen record (lines 1306-1308 and 1394-1396).  The accumulator counts the bytes
appended for the chosen destination; the result is the count after a completed run. -/
def applyAutogenAux (dest : Int) (isArm9 : Bool) (present : Int → Bool) :
    Nat → List GenericPatchInfo → Except String Nat
  | acc, [] => Except.ok acc
  | acc, p :: ps =>
    if p.patchType = PatchType.Jump then
      if p.destThumb = false ∧ p.srcThumb = true then
        if present p.srcAddressOv then
          applyAutogenAux dest isArm9 present
            (acc + (if p.srcAddressOv = dest then 8 else 0)) ps
        else Except.error "Unexpected srcAddressOv for m_autogenDataInfoForDest encountered."
      else applyAutogenAux dest isArm9 present acc ps
    else if p.patchType = PatchType.Call then
      if ¬(p.destThumb = p.srcThumb) ∧ isArm9 = false then
        Except.error "Cannot create thumb-interworking veneer: BLX not supported on armv4."
      else applyAutogenAux dest isArm9 present acc ps
    else if p.patchType = PatchType.Hook then
      if p.destThumb = true ∨ p.srcThumb = true then
        Except.error "Injecting hook with a THUMB end is not supported."
      else if present p.srcAddressOv then
        applyAutogenAux dest isArm9 present
          (acc + (if p.srcAddressOv = dest then 20 else 0)) ps
      else Except.error "Unexpected srcAddressOv for m_autogenDataInfoForDest encountered."
    else applyAutogenAux dest isArm9 present acc ps

/-- The planner reservation of one patch is 20 per matching Hook plus 8 per matching
ARM to THUMB Jump. -/
theorem reserve_step (dest : Int) (p : GenericPatchInfo) :
    (if p.patchType ≠ PatchType.Over ∧ p.jobRegionDest = dest then bridgeReserveBytes p
     else 0)
      = 20 * (if p.patchType = PatchType.Hook ∧ p.jobRegionDest = dest then 1 else 0)
        + 8 * (if p.patchType = PatchType.Jump ∧ p.destThumb = false ∧ p.srcThumb = true ∧
                  p.jobRegionDest = dest then 1 else 0) := by
  by_cases hH : p.patchType = PatchType.Hook
  · by_cases hd : p.jobRegionDest = dest <;>
      simp [hH, hd, bridgeReserveBytes, PatchType.Jump, PatchType.Call, PatchType.Hook,
        PatchType.Over]
  · by_cases hJ : p.patchType = PatchType.Jump
    · by_cases hdT : p.destThumb = false <;> by_cases hsT : p.srcThumb = true <;>
        by_cases hd : p.jobRegionDest = dest <;>
        simp [hJ, hdT, hsT, hd, bridgeReserveBytes, PatchType.Jump, PatchType.Call,
          PatchType.Hook, PatchType.Over]
    · by_cases hO : p.patchType = PatchType.Over
      · simp [hH, hJ, hO, bridgeReserveBytes, PatchType.Jump, PatchType.Call, PatchType.Hook,
          PatchType.Over]
      · simp only [PatchType.Jump, PatchType.Call, PatchType.Hook, PatchType.Over] at hH hJ hO
        simp [hH, hJ, hO, bridgeReserveBytes, PatchType.Jump, PatchType.Call, PatchType.Hook,
          PatchType.Over]

/-- The total planner reservation for a destination counts its hooks and ARM to THUMB
jumps. -/
theorem autogenReserve_eq_counts (dest : Int) (ps : List GenericPatchInfo) :
    autogenReserveForDest dest ps
      = 20 * hookCountForDest dest ps + 8 * arm2ThumbJumpCountForDest dest ps := by
  induction ps with
  | nil => rfl
  | cons p ps ih =>
    rw [autogenReserveForDest, hookCountForDest, arm2ThumbJumpCountForDest,
      reserve_step dest p]
    omega

/-- A completed apply run writes into the autogen buffer of a destination exactly the
bytes the planner reserved for it, provided srcAddressOv agrees with the job region
destination as parseSymbol guarantees for non-Over patches. -/
theorem applyAutogenAux_ok (dest : Int) (isArm9 : Bool) (present : Int → Bool)
    (ps : List GenericPatchInfo) :
    ∀ (acc n : Nat),
      (∀ p ∈ ps, p.patchType ≠ PatchType.Over → p.srcAddressOv = p.jobRegionDest) →
      applyAutogenAux dest isArm9 present acc ps = Except.ok n →
      n = acc + autogenReserveForDest dest ps := by
  induction ps with
  | nil =>
    intro acc n h hap
    simp [applyAutogenAux, autogenReserveForDest] at hap ⊢
    omega
  | cons p ps ih =>
    intro acc n h hap
    have hp := h p (List.mem_cons_self p ps)
    have htail : ∀ q ∈ ps, q.patchType ≠ PatchType.Over → q.srcAddressOv = q.jobRegionDest :=
      fun q hq => h q (List.mem_cons_of_mem p hq)
    rw [applyAutogenAux] at hap
    rw [autogenReserveForDest]
    split_ifs at hap with h1 h2 h3 h4 h5 h6 h7 h8 h9 h10 <;>
      try exact (Except.noConfusion hap)
    · have hs := hp (by rw [h1]; decide)
      have hn := ih _ n htail hap
      have hb : bridgeReserveBytes p = 8 := by
        simp [bridgeReserveBytes, h1, h2.1, h2.2, PatchType.Jump, PatchType.Hook]
      rw [hb, if_pos ⟨by rw [h1]; decide, by omega⟩]
      omega
    · have hs := hp (by rw [h1]; decide)
      have hn := ih _ n htail hap
      rw [if_neg (fun hc => h4 (by omega))]
      omega
    · have hn := ih _ n htail hap
      have hb : bridgeReserveBytes p = 0 := by
        simp [bridgeReserveBytes, h1, h2, PatchType.Jump, PatchType.Hook]
      rw [hb, ite_self]
      omega
    · have hn := ih _ n htail hap
      have hb : bridgeReserveBytes p = 0 := by
        simp [bridgeReserveBytes, h5, PatchType.Jump, PatchType.Call, PatchType.Hook]
      rw [hb, ite_self]
      omega
    · have hs := hp (by rw [h7]; decide)
      have hn := ih _ n htail hap
      have hb : bridgeReserveBytes p = 20 := by
        simp [bridgeReserveBytes, h7, PatchType.Hook]
      rw [hb, if_pos ⟨by rw [h7]; decide, by omega⟩]
      omega
    · have hs := hp (by rw [h7]; decide)
      have hn := ih _ n htail hap
      rw [if_neg (fun hc => h10 (by omega))]
      omega
    · have hn := ih _ n htail hap
      have hb : bridgeReserveBytes p = 0 := by
        simp [bridgeReserveBytes, h1, h7]
      rw [hb, ite_self]
      omega

/-- Claim C3: the autogenDataSize reserved in the linker script for a destination equals
20 bytes per Hook patch plus 8 bytes per Jump patch with destThumb = false and
srcThumb = true belonging to that destination region, and after a completed
applyPatchesToRom run the bridge bytes written into that destination autogen buffer
never exceed the reserved size. -/
theorem claim_C3 (dest : Int) (isArm9 : Bool) (present : Int → Bool)
    (ps : List GenericPatchInfo) (n : Nat)
    (hinv : ∀ p ∈ ps, p.patchType ≠ PatchType.Over → p.srcAddressOv = p.jobRegionDest)
    (hok : applyAutogenAux dest isArm9 present 0 ps = Except.ok n) :
    autogenReserveForDest dest ps
        = 20 * hookCountForDest dest ps + 8 * arm2ThumbJumpCountForDest dest ps ∧
    n ≤ autogenReserveForDest dest ps := by
  refine ⟨autogenReserve_eq_counts dest ps, ?_⟩
  have hn := applyAutogenAux_ok dest isArm9 present ps 0 n hinv hok
  omega

/-- Sample ARM to ARM hook patch record for the claim C3 witness. -/
def sampleHookPatch : GenericPatchInfo :=
  { srcAddress := 0x02030000, srcAddressOv := -1, destAddress := 0x0200ABCC,
    destAddressOv := -1, patchType := PatchType.Hook, sectionIdx := -1, sectionSize := 0,
    isNcpSet := false, srcThumb := false, destThumb := false, symbol := "ncp_hook_200ABCC",
    jobRegionDest := -1 }

/-- Sample ARM to THUMB jump patch record for the claim C3 witness. -/
def sampleArm2ThumbJumpPatch : GenericPatchInfo :=
  { srcAddress := 0x02030101, srcAddressOv := -1, destAddress := 0x02000100,
    destAddressOv := -1, patchType := PatchType.Jump, sectionIdx := -1, sectionSize := 0,
    isNcpSet := false, srcThumb := true, destThumb := false, symbol := "ncp_jump_2000100",
    jobRegionDest := -1 }

/-- Witness for claim C3 on a hook plus an ARM to THUMB jump at destination -1. -/
theorem claim_C3_witness :
    autogenReserveForDest (-1) [sampleHookPatch, sampleArm2ThumbJumpPatch]
        = 20 * hookCountForDest (-1) [sampleHookPatch, sampleArm2ThumbJumpPatch]
          + 8 * arm2ThumbJumpCountForDest (-1) [sampleHookPatch, sampleArm2ThumbJumpPatch] ∧
    28 ≤ autogenReserveForDest (-1) [sampleHookPatch, sampleArm2ThumbJumpPatch] :=
  claim_C3 (-1) true (fun _ => true) [sampleHookPatch, sampleArm2ThumbJumpPatch] 28
    (by decide) (by rfl)

/-- Embedding of the Hook patch application (patchmaker.cpp lines 1372-1421): a Hook
with any THUMB end is fatal (lines 1387-1388); otherwise the result carries the word
written at destAddress (line 1407) and the five 32-bit words of the 20-byte bridge
emitted at the autogen cursor (lines 1411-1415), in order. -/
def applyHookPatch (srcThumb destThumb : Bool)
    (ogOpCode destAddress srcAddress hookBridgeAddr : Nat) : Option (Nat × List Nat) :=
  if destThumb || srcThumb then none
  else some (makeJumpOpCode armOpcodeB destAddress hookBridgeAddr,
    [armHookPush,
     makeJumpOpCode armOpcodeBL (hookBridgeAddr + 4) srcAddress,
     armHookPop,
     fixupOpCode ogOpCode destAddress (hookBridgeAddr + 12),
     makeJumpOpCode armOpcodeB (hookBridgeAddr + 16) (destAddress + 4)])

/-- Claim C4: for every Hook patch with srcThumb = false and destThumb = false the
applier emits a 20-byte bridge (five 32-bit words) containing, in order,
PUSH {R0-R3,R12,LR} (0xE92D500F), a BL to srcAddress encoded from bridge+4,
POP {R0-R3,R12,LR} (0xE8BD500F), the original opcode read from destAddress re-targeted
against bridge+12 exactly when its bits 27..25 equal 0b101 and copied unchanged
otherwise, and a B to destAddress+4 encoded from bridge+16; the word at destAddress
becomes a B to the bridge; and a Hook with srcThumb or destThumb set fails. -/
theorem claim_C4 (ogOpCode destAddress srcAddress bridgeAddr : Nat) :
    applyHookPatch false false ogOpCode destAddress srcAddress bridgeAddr
      = some (makeJumpOpCode 0xEA000000 destAddress bridgeAddr,
        [0xE92D500F,
         makeJumpOpCode 0xEB000000 (bridgeAddr + 4) srcAddress,
         0xE8BD500F,
         fixupOpCode ogOpCode destAddress (bridgeAddr + 12),
         makeJumpOpCode 0xEA000000 (bridgeAddr + 16) (destAddress + 4)]) ∧
    (applyHookPatch false false ogOpCode destAddress srcAddress bridgeAddr).map
        (fun r => r.2.length) = some 5 ∧
    ((ogOpCode >>> 25) &&& 7 = 5 →
      fixupOpCode ogOpCode destAddress (bridgeAddr + 12)
        = makeJumpOpCode (ogOpCode &&& 0xFF000000) (bridgeAddr + 12)
            (u32 ((((ogOpCode &&& 0xFFFFFF) + 2) <<< 2) + destAddress))) ∧
    ((ogOpCode >>> 25) &&& 7 ≠ 5 →
      fixupOpCode ogOpCode destAddress (bridgeAddr + 12) = ogOpCode) ∧
    applyHookPatch true false ogOpCode destAddress srcAddress bridgeAddr = none ∧
    applyHookPatch false true ogOpCode destAddress srcAddress bridgeAddr = none ∧
    applyHookPatch true true ogOpCode destAddress srcAddress bridgeAddr = none := by
  refine ⟨rfl, rfl, fun h => ?_, fun h => ?_, rfl, rfl, rfl⟩
  · rw [fixupOpCode, if_pos h]
  · rw [fixupOpCode, if_neg h]

/-- Witness for claim C4 at the MOV opcode 0xE1A00000 (not a branch) and the branch
opcode 0xEAFFFFFE at destAddress 0x0200ABCC, srcAddress 0x02030000 and bridge address
0x02040000. -/
theorem claim_C4_witness :
    applyHookPatch false false 0xE1A00000 0x0200ABCC 0x02030000 0x02040000
      = some (makeJumpOpCode 0xEA000000 0x0200ABCC 0x02040000,
        [0xE92D500F,
         makeJumpOpCode 0xEB000000 0x02040004 0x02030000,
         0xE8BD500F,
         fixupOpCode 0xE1A00000 0x0200ABCC 0x0204000C,
         makeJumpOpCode 0xEA000000 0x02040010 0x0200ABD0]) ∧
    fixupOpCode 0xE1A00000 0x0200ABCC 0x0204000C = 0xE1A00000 ∧
    fixupOpCode 0xEAFFFFFE 0x0200ABCC 0x0204000C
      = makeJumpOpCode (0xEAFFFFFE &&& 0xFF000000) 0x0204000C
          (u32 ((((0xEAFFFFFE &&& 0xFFFFFF) + 2) <<< 2) + 0x0200ABCC)) := by
  refine ⟨(claim_C4 0xE1A00000 0x0200ABCC 0x02030000 0x02040000).1, ?_, ?_⟩
  · exact (claim_C4 0xE1A00000 0x0200ABCC 0x02030000 0x02040000).2.2.2.1 (by decide)
  · exact (claim_C4 0xEAFFFFFE 0x0200ABCC 0x02030000 0x02040000).2.2.1 (by decide)

/-- Embedding of the Jump patch THUMB-destination writes (patchmaker.cpp lines
1325-1340): three 16-bit halfwords written at destAddress; patchData[1] is declared u16
in the source, so the 32-bit value returned by makeThumbJumpOpCode is truncated to its
low 16 bits on assignment. -/
def thumbJumpHalfwords (srcThumb : Bool) (destAddress srcAddress : Nat) : List Nat :=
  [thumbOpCodePushLR,
   makeThumbJumpOpCode (if srcThumb then thumbOpCodeBL1 else thumbOpCodeBLX1)
     destAddress srcAddress % 65536,
   thumbOpCodePopPC]

/-- Claim C6 evaluation at the failing input: for a Jump with destThumb = true at
destAddress 0x02000000 and srcAddress 0x02020000 the code writes the halfwords
B500 F01F BD00 in both the srcThumb = false (BLX) and srcThumb = true (BL) cases; the
truncation drops the distinguishing second halfword (0xEFFE resp. 0xFFFE) of the
32-bit pair returned by makeThumbJumpOpCode, so the middle halfword is not a BLX or BL
to srcAddress as the claim states. -/
theorem claim_C6 :
    thumbJumpHalfwords false 0x02000000 0x02020000 = [0xB500, 0xF01F, 0xBD00] ∧
    thumbJumpHalfwords true 0x02000000 0x02020000 = [0xB500, 0xF01F, 0xBD00] ∧
    makeThumbJumpOpCode thumbOpCodeBLX1 0x02000000 0x02020000 = 0xEFFEF01F ∧
    makeThumbJumpOpCode thumbOpCodeBL1 0x02000000 0x02020000 = 0xFFFEF01F := by
  decide

/-- Model of an OverlayBin (spec section 4.3; the ndsbin sources are not under src/):
the live byte buffer, the first-load backup buffer, and the dirty flag. -/
structure OverlayBinModel where
  data : List Nat
  backupData : List Nat
  dirty : Bool
deriving Repr, DecidableEq, Inhabited

/-- Embedding of the per-overlay writes of saveOverlayBins (patchmaker.cpp lines
699-724): the ROM file always receives the live buffer ov->data() (line 716); when the
first-load backup buffer is non-empty the backup file is written as well, and it also
receives ov->data() (line 721), not the captured backup bytes. -/
def saveOverlayBinWrites (ov : OverlayBinModel) : List Nat × Option (List Nat) :=
  (ov.data, if ov.backupData.isEmpty then none else some ov.data)

/-- An overlay whose pristine first-load bytes were 1 2 3 4 and whose live buffer was
mutated to 9 2 3 4 by patching. -/
def mutatedOverlay : OverlayBinModel :=
  { data := [9, 2, 3, 4], backupData := [1, 2, 3, 4], dirty := true }

/-- Claim C1 evaluation at the failing input: for an overlay with a non-empty first-load
backup buffer, the bytes saveOverlayBins writes to the backup file are the live mutated
buffer, not the pristine bytes captured at first load. -/
theorem claim_C1 :
    (saveOverlayBinWrites mutatedOverlay).2 = some [9, 2, 3, 4] ∧
    mutatedOverlay.backupData = [1, 2, 3, 4] ∧
    (saveOverlayBinWrites mutatedOverlay).2 ≠ some mutatedOverlay.backupData := by
  decide

/-- Overlay table entry (spec section 3: file format of arm9ovt.bin / arm7ovt.bin; the
ndsbin headers are not under src/). -/
structure OvtEntry where
  ramAddress : Nat
  ramSize : Nat
  bssSize : Nat
  sinitStart : Nat
  sinitEnd : Nat
  fileID : Nat
  compressed : Nat
  flag : Nat
deriving Repr, DecidableEq, Inhabited

/-- The overlay-related state of the patch maker: the overlay table, the in-memory
backup copy of the overlay table (non-empty only when the table was first loaded from
the ROM tree), and the loaded overlays. -/
structure PatchMakerOvState where
  ovtEntries : List OvtEntry
  bakOvtEntries : List OvtEntry
  loadedOverlays : List (Nat × OverlayBinModel)
deriving Repr, DecidableEq, Inhabited

/-- Embedding of PatchMaker::loadOverlayBin (patchmaker.cpp lines 653-687).  The
OverlayBin::load internals are modelled from the spec (section 4.3: the decompressed
bytes are retained, and on a first load from the ROM tree the backup buffer receives a
copy).  Both the backup-file path and the ROM path assign ovte.flag = 0 (lines 668 and
674), and when the in-memory backup overlay table is non-empty its entry flag is also
zeroed (lines 682-683). -/
def loadOverlayBin (st : PatchMakerOvState) (ovID : Nat) (hasBackupFile : Bool)
    (fileBytes : List Nat) : PatchMakerOvState :=
  let ovte := st.ovtEntries.getD ovID default
  let ov : OverlayBinModel :=
    if hasBackupFile then { data := fileBytes, backupData := [], dirty := false }
    else { data := fileBytes, backupData := fileBytes, dirty := false }
  let entries := st.ovtEntries.set ovID { ovte with flag := 0 }
  let bak :=
    if st.bakOvtEntries.isEmpty then st.bakOvtEntries
    else st.bakOvtEntries.set ovID { st.bakOvtEntries.getD ovID default with flag := 0 }
  { ovtEntries := entries, bakOvtEntries := bak,
    loadedOverlays := st.loadedOverlays ++ [(ovID, ov)] }

/-- Reading back an updated list position returns the stored element. -/
theorem getD_set_self {α : Type} (l : List α) (i : Nat) (a d : α) (h : i < l.length) :
    (l.set i a).getD i d = a := by
  induction l generalizing i with
  | nil => simp at h
  | cons x xs ih =>
    cases i with
    | zero => rfl
    | succ i => exact ih i (by simpa using h)

/-- Claim C10: after loadOverlayBin returns, the overlay-table entry for ovID has its
entire flag field equal to zero, on both the load-from-backup path and the
load-from-ROM path, and when a backup copy of the overlay table is held in memory that
copy entry for ovID also has its flag field zeroed. -/
theorem claim_C10 (st : PatchMakerOvState) (ovID : Nat) (hasBackupFile : Bool)
    (fileBytes : List Nat) (h1 : ovID < st.ovtEntries.length) :
    ((loadOverlayBin st ovID hasBackupFile fileBytes).ovtEntries.getD ovID default).flag
        = 0 ∧
    (st.bakOvtEntries ≠ [] → ovID < st.bakOvtEntries.length →
      ((loadOverlayBin st ovID hasBackupFile fileBytes).bakOvtEntries.getD ovID
          default).flag = 0) := by
  constructor
  · simp only [loadOverlayBin]
    rw [getD_set_self _ _ _ _ h1]
  · intro hne hlen
    simp only [loadOverlayBin]
    rw [if_neg (fun hemp => hne (List.isEmpty_iff.mp hemp))]
    rw [getD_set_self _ _ _ _ hlen]

/-- Witness for claim C10 on a two-overlay table with an in-memory backup copy. -/
theorem claim_C10_witness :
    ((loadOverlayBin
        { ovtEntries := [{ ramAddress := 0x02300000, ramSize := 0x1000, bssSize := 0x100,
                           sinitStart := 0, sinitEnd := 0, fileID := 0, compressed := 0x800,
                           flag := 3 }],
          bakOvtEntries := [{ ramAddress := 0x02300000, ramSize := 0x1000, bssSize := 0x100,
                              sinitStart := 0, sinitEnd := 0, fileID := 0, compressed := 0x800,
                              flag := 3 }],
          loadedOverlays := [] } 0 false [1, 2, 3]).ovtEntries.getD 0 default).flag = 0 ∧
    ((loadOverlayBin
        { ovtEntries := [{ ramAddress := 0x02300000, ramSize := 0x1000, bssSize := 0x100,
                           sinitStart := 0, sinitEnd := 0, fileID := 0, compressed := 0x800,
                           flag := 3 }],
          bakOvtEntries := [{ ramAddress := 0x02300000, ramSize := 0x1000, bssSize := 0x100,
                              sinitStart := 0, sinitEnd := 0, fileID := 0, compressed := 0x800,
                              flag := 3 }],
          loadedOverlays := [] } 0 false [1, 2, 3]).bakOvtEntries.getD 0 default).flag = 0 := by
  have h := claim_C10
    { ovtEntries := [{ ramAddress := 0x02300000, ramSize := 0x1000, bssSize := 0x100,
                       sinitStart := 0, sinitEnd := 0, fileID := 0, compressed := 0x800,
                       flag := 3 }],
      bakOvtEntries := [{ ramAddress := 0x02300000, ramSize := 0x1000, bssSize := 0x100,
                          sinitStart := 0, sinitEnd := 0, fileID := 0, compressed := 0x800,
                          flag := 3 }],
      loadedOverlays := [] } 0 false [1, 2, 3] (by decide)
  exact ⟨h.1, h.2 (by decide) (by decide)⟩

end NCPatcher
